import Mathlib

/-!
Shallow embedding of the heliaxdev/plonk core (PlookupComposer circuit builder
and the permutation/lookup ProverKey quotient and linearisation computations),
translated from `src/constraint_system/plookup_composer.rs` and
`src/proof_system/widget/permutation/proverkey.rs`, together with theorems
settling the specification claims about them.

The scalar field `BlsScalar` is embedded as an abstract commutative ring `F`
(the spec assumes an abstract prime field; only ring operations are used by
the embedded code).  `Vec<T>` becomes `List T` with `push` as append of a
singleton.
-/

namespace Plonk

/-- Embeds the tuple struct `Variable(pub usize)`: an opaque wire identifier. -/
structure Variable where
  idx : Nat
deriving DecidableEq, Repr

/-- Modelled from the spec: the wire-role part of a Permutation Tracker
occurrence, one of left/right/output/fourth, tagged with the gate row index
(`variable.rs` / `WireData` is not under `src/`). -/
inductive WireData where
  | left : Nat → WireData
  | right : Nat → WireData
  | output : Nat → WireData
  | fourth : Nat → WireData
deriving DecidableEq, Repr

/-- Modelled from the spec: the Permutation Tracker (`permutation.rs` is not
under `src/`): a mapping from each allocated Variable to the ordered list of
(wire-role, row-index) occurrences; `new_variable` issues monotonically fresh
identifiers.  Entry `i` of `variable_map` holds the occurrences of
`Variable i`; its length is the number of allocated variables. -/
structure Permutation where
  variable_map : List (List WireData)
deriving DecidableEq, Repr

/-- Modelled from the spec: a fresh tracker with no variables. -/
def Permutation.empty : Permutation := ⟨[]⟩

/-- Modelled from the spec: `new_variable` allocates a monotonically fresh
`Variable` with an empty occurrence list, and returns it. -/
def Permutation.new_variable (p : Permutation) : Permutation × Variable :=
  (⟨p.variable_map ++ [[]]⟩, ⟨p.variable_map.length⟩)

/-- Modelled from the spec: record one occurrence of variable `v`. -/
def Permutation.add_occurrence (p : Permutation) (v : Variable) (w : WireData) : Permutation :=
  ⟨p.variable_map.set v.idx ((p.variable_map.getD v.idx []) ++ [w])⟩

/-- Modelled from the spec: `add_variables_to_map(a, b, c, d, n)` records the
left/right/output/fourth occurrences of the four wires of gate row `n`. -/
def Permutation.add_variables_to_map (p : Permutation) (a b c d : Variable) (n : Nat) :
    Permutation :=
  ((((p.add_occurrence a (WireData.left n)).add_occurrence b (WireData.right n)).add_occurrence
      c (WireData.output n)).add_occurrence d (WireData.fourth n))

/-- Embeds `PreProcessingError` (`cs_errors.rs` is not under `src/`; the spec
§7 describes it as a single error kind raised by lookup-family gate
constructors). -/
inductive PreProcessingError where
  | preProcessingError : PreProcessingError
deriving DecidableEq, Repr

/-- Modelled from the spec: `HashMap::insert` semantics for the composer's
`variables` map (insert-or-replace). -/
def insertVariable {F : Type} [DecidableEq F] (m : List (Variable × F)) (v : Variable) (s : F) :
    List (Variable × F) :=
  (v, s) :: m.filter (fun p => p.1 ≠ v)

/-- Embeds the `PlookupComposer` struct: twelve selector columns, the
public-input column, four wire columns, the reserved zero variable, the
variable-to-value map (the source field `variables`; Lean reserves that word, hence `variables_map`) and the permutation tracker. -/
structure PlookupComposer (F : Type) where
  n : Nat
  q_m : List F
  q_l : List F
  q_r : List F
  q_o : List F
  q_4 : List F
  q_c : List F
  q_arith : List F
  q_range : List F
  q_logic : List F
  q_fixed_group_add : List F
  q_variable_group_add : List F
  q_lookup : List F
  public_inputs : List F
  w_l : List Variable
  w_r : List Variable
  w_o : List Variable
  w_4 : List Variable
  zero_var : Variable
  variables_map : List (Variable × F)
  perm : Permutation
deriving DecidableEq, Repr

variable {F : Type} [CommRing F] [DecidableEq F]

/-- Embeds `PlookupComposer::circuit_size`: the row count `n`. -/
def PlookupComposer.circuit_size (cs : PlookupComposer F) : Nat := cs.n

/-- Embeds `PlookupComposer::add_input`: allocate a fresh variable in the
permutation tracker and bind it to the scalar `s`. -/
def PlookupComposer.add_input (cs : PlookupComposer F) (s : F) :
    PlookupComposer F × Variable :=
  let pv := cs.perm.new_variable
  ({ cs with perm := pv.1, variables_map := insertVariable cs.variables_map pv.2 s }, pv.2)

/-- Embeds `PlookupComposer::poly_gate`: appends one generic arithmetic row
`(a * b) * q_m + a * q_l + b * q_r + q_o * c + q_c + PI = 0`. -/
def PlookupComposer.poly_gate (cs : PlookupComposer F) (a b c : Variable)
    (q_m q_l q_r q_o q_c pi : F) :
    PlookupComposer F × (Variable × Variable × Variable) :=
  ({ cs with
      w_l := cs.w_l ++ [a]
      w_r := cs.w_r ++ [b]
      w_o := cs.w_o ++ [c]
      w_4 := cs.w_4 ++ [cs.zero_var]
      q_l := cs.q_l ++ [q_l]
      q_r := cs.q_r ++ [q_r]
      q_m := cs.q_m ++ [q_m]
      q_o := cs.q_o ++ [q_o]
      q_c := cs.q_c ++ [q_c]
      q_4 := cs.q_4 ++ [0]
      q_arith := cs.q_arith ++ [1]
      q_range := cs.q_range ++ [0]
      q_logic := cs.q_logic ++ [0]
      q_fixed_group_add := cs.q_fixed_group_add ++ [0]
      q_variable_group_add := cs.q_variable_group_add ++ [0]
      q_lookup := cs.q_lookup ++ [0]
      public_inputs := cs.public_inputs ++ [pi]
      perm := cs.perm.add_variables_to_map a b c cs.zero_var cs.n
      n := cs.n + 1 },
    (a, b, c))

/-- Embeds `PlookupComposer::lookup_gate` exactly as written in the source:
note that the source pushes `a`, `b` and `c` all onto `w_l`, pushes nothing
onto `w_r`, `w_o` or `public_inputs`, does not register the wires with the
permutation tracker, does not increment `n`, and returns `Ok(())`. -/
def PlookupComposer.lookup_gate (cs : PlookupComposer F) (a b c : Variable) :
    PlookupComposer F × Except PreProcessingError Unit :=
  ({ cs with
      w_l := ((cs.w_l ++ [a]) ++ [b]) ++ [c]
      w_4 := cs.w_4 ++ [cs.zero_var]
      q_l := cs.q_l ++ [0]
      q_r := cs.q_r ++ [0]
      q_m := cs.q_m ++ [0]
      q_o := cs.q_o ++ [0]
      q_c := cs.q_c ++ [0]
      q_4 := cs.q_4 ++ [0]
      q_arith := cs.q_arith ++ [0]
      q_range := cs.q_range ++ [0]
      q_logic := cs.q_logic ++ [0]
      q_fixed_group_add := cs.q_fixed_group_add ++ [0]
      q_variable_group_add := cs.q_variable_group_add ++ [0]
      q_lookup := cs.q_lookup ++ [1] },
    Except.ok ())

/-- Embeds `PlookupComposer::constrain_to_constant`: sugar over `poly_gate`
with selectors `q_l = 1`, `q_c = -constant`. -/
def PlookupComposer.constrain_to_constant (cs : PlookupComposer F) (a : Variable)
    (constant pi : F) : PlookupComposer F :=
  (cs.poly_gate a a a 0 1 0 0 (-constant) pi).1

/-- Embeds `PlookupComposer::assert_equal`: sugar over `poly_gate` with
`q_l = 1`, `q_r = -1`. -/
def PlookupComposer.assert_equal (cs : PlookupComposer F) (a b : Variable) :
    PlookupComposer F :=
  (cs.poly_gate a b cs.zero_var 0 1 (-1) 0 0 0).1

/-- Embeds `PlookupComposer::add_witness_to_circuit_description`: add an input
and constrain it to the constant `value`. -/
def PlookupComposer.add_witness_to_circuit_description (cs : PlookupComposer F) (value : F) :
    PlookupComposer F × Variable :=
  let cv := cs.add_input value
  (cv.1.constrain_to_constant cv.2 value 0, cv.2)

/-- Embeds `PlookupComposer::add_one_dummy_constraint`: one fixed hygiene row
with selectors `(1,2,3,4,4,1,1,0,0,0,0,1)`, freshly allocated witnesses
`6, 1, 7, -20` on the four wires, a zero public input, and permutation
registration at the new row index. -/
def PlookupComposer.add_one_dummy_constraint (cs : PlookupComposer F) : PlookupComposer F :=
  let cs := { cs with
      q_m := cs.q_m ++ [1]
      q_l := cs.q_l ++ [2]
      q_r := cs.q_r ++ [3]
      q_o := cs.q_o ++ [4]
      q_c := cs.q_c ++ [4]
      q_4 := cs.q_4 ++ [1]
      q_arith := cs.q_arith ++ [1]
      q_range := cs.q_range ++ [0]
      q_logic := cs.q_logic ++ [0]
      q_fixed_group_add := cs.q_fixed_group_add ++ [0]
      q_variable_group_add := cs.q_variable_group_add ++ [0]
      q_lookup := cs.q_lookup ++ [1]
      public_inputs := cs.public_inputs ++ [0] }
  let r6 := cs.add_input 6
  let r1 := r6.1.add_input 1
  let r7 := r1.1.add_input 7
  let rm20 := r7.1.add_input (-20)
  let cs := rm20.1
  { cs with
      w_l := cs.w_l ++ [r6.2]
      w_r := cs.w_r ++ [r7.2]
      w_o := cs.w_o ++ [rm20.2]
      w_4 := cs.w_4 ++ [r1.2]
      perm := cs.perm.add_variables_to_map r6.2 r7.2 rm20.2 r1.2 cs.n
      n := cs.n + 1 }

/-- Embeds `PlookupComposer::add_dummy_constraints`: two fixed hygiene rows;
the first matches `add_one_dummy_constraint`, the second has selectors
`(1,1,1,1,127,0,1,0,0,0,0,1)` and reuses the first row's witnesses plus
`zero_var` on the fourth wire. -/
def PlookupComposer.add_dummy_constraints (cs : PlookupComposer F) : PlookupComposer F :=
  let cs := { cs with
      q_m := cs.q_m ++ [1]
      q_l := cs.q_l ++ [2]
      q_r := cs.q_r ++ [3]
      q_o := cs.q_o ++ [4]
      q_c := cs.q_c ++ [4]
      q_4 := cs.q_4 ++ [1]
      q_arith := cs.q_arith ++ [1]
      q_range := cs.q_range ++ [0]
      q_logic := cs.q_logic ++ [0]
      q_fixed_group_add := cs.q_fixed_group_add ++ [0]
      q_variable_group_add := cs.q_variable_group_add ++ [0]
      q_lookup := cs.q_lookup ++ [1]
      public_inputs := cs.public_inputs ++ [0] }
  let r6 := cs.add_input 6
  let r1 := r6.1.add_input 1
  let r7 := r1.1.add_input 7
  let rm20 := r7.1.add_input (-20)
  let cs := rm20.1
  let cs := { cs with
      w_l := cs.w_l ++ [r6.2]
      w_r := cs.w_r ++ [r7.2]
      w_o := cs.w_o ++ [rm20.2]
      w_4 := cs.w_4 ++ [r1.2]
      perm := cs.perm.add_variables_to_map r6.2 r7.2 rm20.2 r1.2 cs.n
      n := cs.n + 1 }
  { cs with
      q_m := cs.q_m ++ [1]
      q_l := cs.q_l ++ [1]
      q_r := cs.q_r ++ [1]
      q_o := cs.q_o ++ [1]
      q_c := cs.q_c ++ [127]
      q_4 := cs.q_4 ++ [0]
      q_arith := cs.q_arith ++ [1]
      q_range := cs.q_range ++ [0]
      q_logic := cs.q_logic ++ [0]
      q_fixed_group_add := cs.q_fixed_group_add ++ [0]
      q_variable_group_add := cs.q_variable_group_add ++ [0]
      q_lookup := cs.q_lookup ++ [1]
      public_inputs := cs.public_inputs ++ [0]
      w_l := cs.w_l ++ [rm20.2]
      w_r := cs.w_r ++ [r6.2]
      w_o := cs.w_o ++ [r7.2]
      w_4 := cs.w_4 ++ [cs.zero_var]
      perm := cs.perm.add_variables_to_map rm20.2 r6.2 r7.2 cs.zero_var cs.n
      n := cs.n + 1 }

/-- Embeds `PlookupComposer::plookup_gate`: one lookup-query row whose fourth
wire defaults to `zero_var` when the advice wire `d` is absent; only the
lookup selector is enabled; returns the output wire `c`. -/
def PlookupComposer.plookup_gate (cs : PlookupComposer F) (a b c : Variable)
    (d : Option Variable) (pi : F) : PlookupComposer F × Variable :=
  let d := match d with
    | some var => var
    | none => cs.zero_var
  ({ cs with
      w_l := cs.w_l ++ [a]
      w_r := cs.w_r ++ [b]
      w_o := cs.w_o ++ [c]
      w_4 := cs.w_4 ++ [d]
      q_l := cs.q_l ++ [0]
      q_r := cs.q_r ++ [0]
      q_o := cs.q_o ++ [0]
      q_c := cs.q_c ++ [0]
      q_4 := cs.q_4 ++ [0]
      q_arith := cs.q_arith ++ [0]
      q_m := cs.q_m ++ [0]
      q_range := cs.q_range ++ [0]
      q_logic := cs.q_logic ++ [0]
      q_fixed_group_add := cs.q_fixed_group_add ++ [0]
      q_variable_group_add := cs.q_variable_group_add ++ [0]
      q_lookup := cs.q_lookup ++ [1]
      public_inputs := cs.public_inputs ++ [pi]
      perm := cs.perm.add_variables_to_map a b c d cs.n
      n := cs.n + 1 },
    c)

/-- Embeds `PlookupComposer::with_expected_size`: all columns start empty
(`expected_size` only pre-allocates `Vec` capacity in the source and has no
semantic effect), the zero variable is fixed to zero via
`add_witness_to_circuit_description`, then the two dummy hygiene rows are
added. -/
def PlookupComposer.with_expected_size (F : Type) [CommRing F] [DecidableEq F]
    (expected_size : Nat) : PlookupComposer F :=
  let _ := expected_size
  let composer : PlookupComposer F :=
    { n := 0
      q_m := [], q_l := [], q_r := [], q_o := [], q_c := [], q_4 := []
      q_arith := [], q_range := [], q_logic := []
      q_fixed_group_add := [], q_variable_group_add := [], q_lookup := []
      public_inputs := []
      w_l := [], w_r := [], w_o := [], w_4 := []
      zero_var := ⟨0⟩
      variables_map := []
      perm := Permutation.empty }
  let rz := composer.add_witness_to_circuit_description 0
  let composer := { rz.1 with zero_var := rz.2 }
  composer.add_dummy_constraints

/-- Embeds `PlookupComposer::new`: `with_expected_size(0)`. -/
def PlookupComposer.new (F : Type) [CommRing F] [DecidableEq F] : PlookupComposer F :=
  PlookupComposer.with_expected_size F 0

/-- Embeds `impl Default for PlookupComposer`: `Self::new()`. -/
def PlookupComposer.default (F : Type) [CommRing F] [DecidableEq F] : PlookupComposer F :=
  PlookupComposer.new F

/-!
The permutation/lookup `ProverKey` of
`src/proof_system/widget/permutation/proverkey.rs`.  `Polynomial` (dense
coefficient vector) and `Evaluations` are both embedded as `List F`; each
source field of type `(Polynomial, Evaluations)` becomes `List F × List F`.
The coset constants `K1`, `K2`, `K3` live in `permutation/constants.rs`,
which is not under `src/`; per the spec they are fixed nonzero field
constants, so they are taken here as explicit parameters.  Rust's panicking
slice indexing is embedded as `List.get?`, making the affected functions
`Option`-valued (`none` = the panic branch).
-/

/-- Embeds the `ProverKey` struct of the permutation widget. -/
structure ProverKey (F : Type) where
  left_sigma : List F × List F
  right_sigma : List F × List F
  out_sigma : List F × List F
  fourth_sigma : List F × List F
  linear_evaluations : List F
  h_1 : List F × List F
  h_2 : List F × List F
  t : List F × List F
deriving DecidableEq, Repr

/-- Embeds `compute_quotient_identity_range_check_i`:
`(w_l + βx + γ)(w_r + βK1x + γ)(w_o + βK2x + γ)(w_4 + βK3x + γ)·z(x)·α`
with `x = linear_evaluations[index]`. -/
def ProverKey.compute_quotient_identity_range_check_i (K1 K2 K3 : F) (pk : ProverKey F)
    (index : Nat) (w_l_i w_r_i w_o_i w_4_i z_i alpha beta gamma : F) : Option F :=
  (pk.linear_evaluations.get? index).map fun x =>
    (w_l_i + (beta * x) + gamma)
      * (w_r_i + (beta * K1 * x) + gamma)
      * (w_o_i + (beta * K2 * x) + gamma)
      * (w_4_i + (beta * K3 * x) + gamma)
      * z_i
      * alpha

/-- Embeds `compute_quotient_copy_range_check_i`: minus the same product taken
over the four sigma evaluations at `index`, against `z(ωx)`. -/
def ProverKey.compute_quotient_copy_range_check_i (pk : ProverKey F)
    (index : Nat) (w_l_i w_r_i w_o_i w_4_i z_i_next alpha beta gamma : F) : Option F := do
  let left_sigma_eval ← pk.left_sigma.2.get? index
  let right_sigma_eval ← pk.right_sigma.2.get? index
  let out_sigma_eval ← pk.out_sigma.2.get? index
  let fourth_sigma_eval ← pk.fourth_sigma.2.get? index
  pure (-((w_l_i + (beta * left_sigma_eval) + gamma)
    * (w_r_i + (beta * right_sigma_eval) + gamma)
    * (w_o_i + (beta * out_sigma_eval) + gamma)
    * (w_4_i + (beta * fourth_sigma_eval) + gamma)
    * z_i_next
    * alpha))

/-- Embeds `compute_lookup_quotient_identity_range_check_i`:
`(x - ω^{n-1})·p(x)·(1+δ)·(ε+f(x))·(ε(1+δ)+t(x)+δ·t(ωx))·α⁵`. -/
def ProverKey.compute_lookup_quotient_identity_range_check_i (pk : ProverKey F)
    (index : Nat) (f_i t_i t_i_next p_i alpha delta epsilon omega_roots : F) : Option F :=
  (pk.linear_evaluations.get? index).map fun x =>
    let alpha_5 := alpha * alpha * alpha * alpha * alpha
    let one_plus_delta := 1 + delta
    let a_1 := x - omega_roots
    let a_2 := epsilon + f_i
    let a_3 := (epsilon * one_plus_delta) + t_i + (delta * t_i_next)
    a_1 * p_i * one_plus_delta * a_2 * a_3 * alpha_5

/-- Embeds `compute_lookup_quotient_copy_range_check_i`: minus
`p(ωx)·(x - ω^{n-1})·(ε(1+δ)+h_1(x)+δ·h_1(ωx))·(ε(1+δ)+h_2(x)+δ·h_2(ωx))·α⁵`. -/
def ProverKey.compute_lookup_quotient_copy_range_check_i (pk : ProverKey F)
    (index : Nat) (h_1_i h_2_i h_1_i_next h_2_i_next p_i_next alpha delta epsilon omega_roots : F) :
    Option F :=
  (pk.linear_evaluations.get? index).map fun x =>
    let alpha_5 := alpha * alpha * alpha * alpha * alpha
    let one_plus_delta := 1 + delta
    let epsilon_one_plus_delta := epsilon * one_plus_delta
    let a_1 := x - omega_roots
    let a_2 := epsilon_one_plus_delta + h_1_i + (delta * h_1_i_next)
    let a_3 := epsilon_one_plus_delta + h_2_i + (delta * h_2_i_next)
    Neg.neg (p_i_next * a_1 * a_2 * a_3 * alpha_5)

/-- Embeds `compute_quotient_term_check_first_la_grange_polys`:
`(z(x)-1)·L1·α² + (p(x)-1)·L1·α⁴` (the two Lagrange-boundary factors are
supplied precomputed). -/
def ProverKey.compute_quotient_term_check_first_la_grange_polys (pk : ProverKey F)
    (z_i p_i l1_alpha_sq l1_alpha_4 : F) : F :=
  let _ := pk
  (z_i - 1) * l1_alpha_sq + (p_i - 1) * l1_alpha_4

/-- Embeds `compute_quotient_last_la_grange_polys`: `(p(x)-1)·Ln·α⁷`. -/
def ProverKey.compute_quotient_last_la_grange_polys (pk : ProverKey F)
    (p_i ln_alpha_7 : F) : F :=
  let _ := pk
  (p_i - 1) * ln_alpha_7

/-- Embeds `compute_overlap_check`: `(h_1(x) - h_2(ωx))·Ln·α⁶`. -/
def ProverKey.compute_overlap_check (pk : ProverKey F)
    (h_1_i h_2_i_next ln_alpha_6 : F) : F :=
  let _ := pk
  (h_1_i - h_2_i_next) * ln_alpha_6

/-- Embeds `ProverKey::compute_quotient_i`: the sum `a+b+c+d+e+f+g` of the
seven per-domain-point terms. -/
def ProverKey.compute_quotient_i (K1 K2 K3 : F) (pk : ProverKey F) (index : Nat)
    (w_l_i w_r_i w_o_i w_4_i f_i t_i t_i_next h_1_i h_2_i h_1_i_next h_2_i_next
     z_i z_i_next p_i p_i_next alpha l1_alpha_sq l1_alpha_4 ln_alpha_6 ln_alpha_7
     beta gamma delta epsilon omega_roots : F) : Option F := do
  let a ← ProverKey.compute_quotient_identity_range_check_i K1 K2 K3 pk index
    w_l_i w_r_i w_o_i w_4_i z_i alpha beta gamma
  let b ← ProverKey.compute_quotient_copy_range_check_i pk index
    w_l_i w_r_i w_o_i w_4_i z_i_next alpha beta gamma
  let c ← ProverKey.compute_lookup_quotient_identity_range_check_i pk index
    f_i t_i t_i_next p_i alpha delta epsilon omega_roots
  let d ← ProverKey.compute_lookup_quotient_copy_range_check_i pk index
    h_1_i h_2_i h_1_i_next h_2_i_next p_i_next alpha delta epsilon omega_roots
  let e := ProverKey.compute_quotient_term_check_first_la_grange_polys pk
    z_i p_i l1_alpha_sq l1_alpha_4
  let f := ProverKey.compute_quotient_last_la_grange_polys pk p_i ln_alpha_7
  let g := ProverKey.compute_overlap_check pk h_1_i h_2_i_next ln_alpha_6
  pure (a + b + c + d + e + f + g)

/-- Modelled from the spec: scalar multiplication of the external dense
`Polynomial` type (`poly * &scalar` in the source; §6 of the spec). -/
def polyScale (p : List F) (s : F) : List F := p.map fun coeff => coeff * s

/-- Modelled from the spec: addition of the external dense `Polynomial` type
(`&p + &q` in the source; §6 of the spec), as coefficient-wise addition with
zero padding to the longer length. -/
def polyAdd (p q : List F) : List F :=
  List.zipWith (· + ·)
    (p ++ List.replicate (q.length - p.length) 0)
    (q ++ List.replicate (p.length - q.length) 0)

/-- Embeds `compute_lineariser_identity_range_check`: the fully evaluated
scalar `(ā+βz+γ)(b̄+βK1z+γ)(c̄+βK2z+γ)(d̄+βK3z+γ)·α` times the retained
committed polynomial `z_poly`. -/
def ProverKey.compute_lineariser_identity_range_check (K1 K2 K3 : F) (pk : ProverKey F)
    (a_eval b_eval c_eval d_eval : F) (z_challenge : F) (alpha beta gamma : F)
    (z_poly : List F) : List F :=
  let _ := pk
  let beta_z := beta * z_challenge
  let a_0 := a_eval + beta_z + gamma
  let beta_z_k1 := K1 * beta_z
  let a_1 := b_eval + beta_z_k1 + gamma
  let beta_z_k2 := K2 * beta_z
  let a_2 := c_eval + beta_z_k2 + gamma
  let beta_z_k3 := K3 * beta_z
  let a_3 := d_eval + beta_z_k3 + gamma
  let a := a_0 * a_1 * a_2 * a_3 * alpha
  polyScale z_poly a

/-- Embeds `compute_lineariser_copy_range_check`: the fully evaluated scalar
`-(ā+βσ̄1+γ)(b̄+βσ̄2+γ)(c̄+βσ̄3+γ)·β·z̄·α` times the retained committed
fourth-sigma polynomial. -/
def ProverKey.compute_lineariser_copy_range_check (pk : ProverKey F)
    (a_eval b_eval c_eval : F) (z_eval : F) (sigma_1_eval sigma_2_eval sigma_3_eval : F)
    (alpha beta gamma : F) (fourth_sigma_poly : List F) : List F :=
  let _ := pk
  let a_0 := a_eval + beta * sigma_1_eval + gamma
  let a_1 := b_eval + beta * sigma_2_eval + gamma
  let a_2 := c_eval + beta * sigma_3_eval + gamma
  let beta_z_eval := beta * z_eval
  let a := a_0 * a_1 * a_2 * beta_z_eval * alpha
  polyScale fourth_sigma_poly (-a)

/-- Embeds `compute_lineariser_check_is_one`: `z_poly` scaled by
`L1(z_challenge)·α²`, where `L1(z_challenge)` is entry 0 of the external
domain's Lagrange-coefficient evaluation (the `[0]` indexing is the `none`
branch when the returned vector is empty). -/
def ProverKey.compute_lineariser_check_is_one {EvDom : Type}
    (evaluate_all_lagrange_coefficients : EvDom → F → List F) (pk : ProverKey F)
    (domain : EvDom) (z_challenge alpha_sq : F) (z_coeffs : List F) : Option (List F) :=
  let _ := pk
  ((evaluate_all_lagrange_coefficients domain z_challenge).get? 0).map fun l_1_z =>
    polyScale z_coeffs (l_1_z * alpha_sq)

/-- Embeds `ProverKey::compute_linearisation`.  The external evaluation-domain
machinery (spec §1 out-of-scope, §6) is a black box, taken as parameters:
`evaluation_domain_new` embeds the fallible `EvaluationDomain::new` (its
`unwrap` is the `none` branch) and `poly_degree` embeds the external
`Polynomial::degree` query. -/
def ProverKey.compute_linearisation {EvDom : Type}
    (evaluation_domain_new : Nat → Option EvDom)
    (evaluate_all_lagrange_coefficients : EvDom → F → List F)
    (poly_degree : List F → Nat)
    (K1 K2 K3 : F) (pk : ProverKey F)
    (z_challenge : F) (alpha beta gamma : F)
    (a_eval b_eval c_eval d_eval : F)
    (sigma_1_eval sigma_2_eval sigma_3_eval : F)
    (z_eval : F) (z_poly : List F) : Option (List F) := do
  let a := ProverKey.compute_lineariser_identity_range_check K1 K2 K3 pk
    a_eval b_eval c_eval d_eval z_challenge alpha beta gamma z_poly
  let b := ProverKey.compute_lineariser_copy_range_check pk
    a_eval b_eval c_eval z_eval sigma_1_eval sigma_2_eval sigma_3_eval
    alpha beta gamma pk.fourth_sigma.1
  let domain ← evaluation_domain_new (poly_degree z_poly)
  let c ← ProverKey.compute_lineariser_check_is_one
    evaluate_all_lagrange_coefficients pk domain z_challenge (alpha * alpha) z_poly
  pure (polyAdd (polyAdd a b) c)

/-- A concrete prover key over `ZMod 101` used to witness the theorems with
hypotheses. -/
def pkW : ProverKey (ZMod 101) :=
  { left_sigma := ([2], [3])
    right_sigma := ([4], [5])
    out_sigma := ([6], [7])
    fourth_sigma := ([8], [9])
    linear_evaluations := [10]
    h_1 := ([11], [12])
    h_2 := ([13], [14])
    t := ([15], [16]) }

/-- A second concrete prover key agreeing with `pkW` on every field that is
not lookup data, and differing from it on `h_1`, `h_2` and `t`. -/
def pkWL : ProverKey (ZMod 101) :=
  { left_sigma := ([2], [3])
    right_sigma := ([4], [5])
    out_sigma := ([6], [7])
    fourth_sigma := ([8], [9])
    linear_evaluations := [10]
    h_1 := ([91], [92])
    h_2 := ([93], [94])
    t := ([95], [96]) }

/-!  Theorems settling the claims.  -/

/-- Claim C1 (refuted — code bug in `lookup_gate`): the length-synchronisation
invariant fails after a single `lookup_gate` call on a fresh composer: `w_l`
has 6 entries while `circuit_size()` is 3 and `w_r`, `w_o` and
`public_inputs` still have 3 entries, because `lookup_gate` pushes `a`, `b`
and `c` all onto `w_l`, pushes nothing onto `w_r`, `w_o` or `public_inputs`,
and never increments `n`. -/
theorem lookup_gate_breaks_length_invariant :
    ((PlookupComposer.new (ZMod 101)).lookup_gate ⟨0⟩ ⟨0⟩ ⟨0⟩).1.w_l.length = 6 ∧
    ((PlookupComposer.new (ZMod 101)).lookup_gate ⟨0⟩ ⟨0⟩ ⟨0⟩).1.w_r.length = 3 ∧
    ((PlookupComposer.new (ZMod 101)).lookup_gate ⟨0⟩ ⟨0⟩ ⟨0⟩).1.w_o.length = 3 ∧
    ((PlookupComposer.new (ZMod 101)).lookup_gate ⟨0⟩ ⟨0⟩ ⟨0⟩).1.public_inputs.length = 3 ∧
    ((PlookupComposer.new (ZMod 101)).lookup_gate ⟨0⟩ ⟨0⟩ ⟨0⟩).1.circuit_size = 3 := by
  decide

/-- Claim C2 (refuted — code bug in `lookup_gate`): the actual effect of
`lookup_gate(a, b, c)` on every composer state: it pushes `a`, `b` and `c`
all onto `w_l` (not `b` onto `w_r` nor `c` onto `w_o`), pushes `zero_var`
onto `w_4`, pushes zero onto the eleven arithmetic-family selectors and one
onto `q_lookup`, and leaves `w_r`, `w_o`, `public_inputs`, the permutation
tracker and the row count `n` unchanged. -/
theorem lookup_gate_actual_effect {F : Type} [CommRing F] [DecidableEq F]
    (cs : PlookupComposer F) (a b c : Variable) :
    (cs.lookup_gate a b c).1.w_l = cs.w_l ++ [a, b, c] ∧
    (cs.lookup_gate a b c).1.w_r = cs.w_r ∧
    (cs.lookup_gate a b c).1.w_o = cs.w_o ∧
    (cs.lookup_gate a b c).1.w_4 = cs.w_4 ++ [cs.zero_var] ∧
    (cs.lookup_gate a b c).1.q_m = cs.q_m ++ [0] ∧
    (cs.lookup_gate a b c).1.q_l = cs.q_l ++ [0] ∧
    (cs.lookup_gate a b c).1.q_r = cs.q_r ++ [0] ∧
    (cs.lookup_gate a b c).1.q_o = cs.q_o ++ [0] ∧
    (cs.lookup_gate a b c).1.q_4 = cs.q_4 ++ [0] ∧
    (cs.lookup_gate a b c).1.q_c = cs.q_c ++ [0] ∧
    (cs.lookup_gate a b c).1.q_arith = cs.q_arith ++ [0] ∧
    (cs.lookup_gate a b c).1.q_range = cs.q_range ++ [0] ∧
    (cs.lookup_gate a b c).1.q_logic = cs.q_logic ++ [0] ∧
    (cs.lookup_gate a b c).1.q_fixed_group_add = cs.q_fixed_group_add ++ [0] ∧
    (cs.lookup_gate a b c).1.q_variable_group_add = cs.q_variable_group_add ++ [0] ∧
    (cs.lookup_gate a b c).1.q_lookup = cs.q_lookup ++ [1] ∧
    (cs.lookup_gate a b c).1.public_inputs = cs.public_inputs ∧
    (cs.lookup_gate a b c).1.perm = cs.perm ∧
    (cs.lookup_gate a b c).1.n = cs.n := by
  refine ⟨?_, rfl, rfl, rfl, rfl, rfl, rfl, rfl, rfl, rfl, rfl, rfl, rfl, rfl, rfl, rfl,
    rfl, rfl, rfl⟩
  simp [PlookupComposer.lookup_gate]

/-- Claim C6: `poly_gate(a, b, c, q_m, q_l, q_r, q_o, q_c, pi)` appends
exactly one synchronized row at index `n` storing the given arithmetic
selectors with `q_arith = 1` and all other selectors zero, wires
`(a, b, c, zero_var)`, public input `pi`, registers all four wires with the
permutation tracker at row index `n`, increments `n` by one, and returns
`(a, b, c)`. -/
theorem poly_gate_appends_synchronized_row {F : Type} [CommRing F] [DecidableEq F]
    (cs : PlookupComposer F) (a b c : Variable) (q_m q_l q_r q_o q_c pi : F) :
    (cs.poly_gate a b c q_m q_l q_r q_o q_c pi).2 = (a, b, c) ∧
    (cs.poly_gate a b c q_m q_l q_r q_o q_c pi).1.q_m = cs.q_m ++ [q_m] ∧
    (cs.poly_gate a b c q_m q_l q_r q_o q_c pi).1.q_l = cs.q_l ++ [q_l] ∧
    (cs.poly_gate a b c q_m q_l q_r q_o q_c pi).1.q_r = cs.q_r ++ [q_r] ∧
    (cs.poly_gate a b c q_m q_l q_r q_o q_c pi).1.q_o = cs.q_o ++ [q_o] ∧
    (cs.poly_gate a b c q_m q_l q_r q_o q_c pi).1.q_c = cs.q_c ++ [q_c] ∧
    (cs.poly_gate a b c q_m q_l q_r q_o q_c pi).1.q_arith = cs.q_arith ++ [1] ∧
    (cs.poly_gate a b c q_m q_l q_r q_o q_c pi).1.q_4 = cs.q_4 ++ [0] ∧
    (cs.poly_gate a b c q_m q_l q_r q_o q_c pi).1.q_range = cs.q_range ++ [0] ∧
    (cs.poly_gate a b c q_m q_l q_r q_o q_c pi).1.q_logic = cs.q_logic ++ [0] ∧
    (cs.poly_gate a b c q_m q_l q_r q_o q_c pi).1.q_fixed_group_add
      = cs.q_fixed_group_add ++ [0] ∧
    (cs.poly_gate a b c q_m q_l q_r q_o q_c pi).1.q_variable_group_add
      = cs.q_variable_group_add ++ [0] ∧
    (cs.poly_gate a b c q_m q_l q_r q_o q_c pi).1.q_lookup = cs.q_lookup ++ [0] ∧
    (cs.poly_gate a b c q_m q_l q_r q_o q_c pi).1.w_l = cs.w_l ++ [a] ∧
    (cs.poly_gate a b c q_m q_l q_r q_o q_c pi).1.w_r = cs.w_r ++ [b] ∧
    (cs.poly_gate a b c q_m q_l q_r q_o q_c pi).1.w_o = cs.w_o ++ [c] ∧
    (cs.poly_gate a b c q_m q_l q_r q_o q_c pi).1.w_4 = cs.w_4 ++ [cs.zero_var] ∧
    (cs.poly_gate a b c q_m q_l q_r q_o q_c pi).1.public_inputs
      = cs.public_inputs ++ [pi] ∧
    (cs.poly_gate a b c q_m q_l q_r q_o q_c pi).1.perm
      = cs.perm.add_variables_to_map a b c cs.zero_var cs.n ∧
    (cs.poly_gate a b c q_m q_l q_r q_o q_c pi).1.n = cs.n + 1 :=
  ⟨rfl, rfl, rfl, rfl, rfl, rfl, rfl, rfl, rfl, rfl, rfl, rfl, rfl, rfl, rfl, rfl, rfl,
    rfl, rfl, rfl⟩

/-- Claim C7: `plookup_gate(a, b, c, d, pi)` appends exactly one synchronized
row whose fourth wire is `d` when present and `zero_var` otherwise, enables
only `q_lookup`, pushes `pi` onto `public_inputs`, registers all four wires
with the permutation tracker at row index `n`, increments `n` by one, and
returns `c`. -/
theorem plookup_gate_appends_lookup_row {F : Type} [CommRing F] [DecidableEq F]
    (cs : PlookupComposer F) (a b c : Variable) (d : Option Variable) (pi : F) :
    (cs.plookup_gate a b c d pi).2 = c ∧
    (cs.plookup_gate a b c d pi).1.w_l = cs.w_l ++ [a] ∧
    (cs.plookup_gate a b c d pi).1.w_r = cs.w_r ++ [b] ∧
    (cs.plookup_gate a b c d pi).1.w_o = cs.w_o ++ [c] ∧
    (cs.plookup_gate a b c d pi).1.w_4 = cs.w_4 ++ [d.getD cs.zero_var] ∧
    (cs.plookup_gate a b c d pi).1.q_m = cs.q_m ++ [0] ∧
    (cs.plookup_gate a b c d pi).1.q_l = cs.q_l ++ [0] ∧
    (cs.plookup_gate a b c d pi).1.q_r = cs.q_r ++ [0] ∧
    (cs.plookup_gate a b c d pi).1.q_o = cs.q_o ++ [0] ∧
    (cs.plookup_gate a b c d pi).1.q_4 = cs.q_4 ++ [0] ∧
    (cs.plookup_gate a b c d pi).1.q_c = cs.q_c ++ [0] ∧
    (cs.plookup_gate a b c d pi).1.q_arith = cs.q_arith ++ [0] ∧
    (cs.plookup_gate a b c d pi).1.q_range = cs.q_range ++ [0] ∧
    (cs.plookup_gate a b c d pi).1.q_logic = cs.q_logic ++ [0] ∧
    (cs.plookup_gate a b c d pi).1.q_fixed_group_add = cs.q_fixed_group_add ++ [0] ∧
    (cs.plookup_gate a b c d pi).1.q_variable_group_add
      = cs.q_variable_group_add ++ [0] ∧
    (cs.plookup_gate a b c d pi).1.q_lookup = cs.q_lookup ++ [1] ∧
    (cs.plookup_gate a b c d pi).1.public_inputs = cs.public_inputs ++ [pi] ∧
    (cs.plookup_gate a b c d pi).1.perm
      = cs.perm.add_variables_to_map a b c (d.getD cs.zero_var) cs.n ∧
    (cs.plookup_gate a b c d pi).1.n = cs.n + 1 := by
  cases d <;>
    exact ⟨rfl, rfl, rfl, rfl, rfl, rfl, rfl, rfl, rfl, rfl, rfl, rfl, rfl, rfl, rfl,
      rfl, rfl, rfl, rfl, rfl⟩

/-- Claim C8: every freshly constructed composer — via `new()`, `default()`
or `with_expected_size(k)` for any `k` — has `circuit_size() = 3` before any
user gate is added. -/
theorem fresh_composer_circuit_size_three {F : Type} [CommRing F] [DecidableEq F] (k : Nat) :
    (PlookupComposer.with_expected_size F k).circuit_size = 3 ∧
    (PlookupComposer.new F).circuit_size = 3 ∧
    (PlookupComposer.default F).circuit_size = 3 :=
  ⟨rfl, rfl, rfl⟩

/-- Claim C9: both rows of `add_dummy_constraints` and the row of
`add_one_dummy_constraint` push one onto `q_lookup`, so a freshly constructed
composer already holds `q_lookup = [0, 1, 1]` — rows with the lookup selector
enabled. -/
theorem dummy_rows_enable_q_lookup {F : Type} [CommRing F] [DecidableEq F]
    (cs : PlookupComposer F) :
    (cs.add_one_dummy_constraint).q_lookup = cs.q_lookup ++ [1] ∧
    (cs.add_dummy_constraints).q_lookup = cs.q_lookup ++ [1, 1] ∧
    (PlookupComposer.new F).q_lookup = [0, 1, 1] := by
  refine ⟨rfl, ?_, rfl⟩
  show (cs.q_lookup ++ [1]) ++ [1] = cs.q_lookup ++ [1, 1]
  simp

/-- Claim C10: `lookup_gate` returns `Ok(())` for every composer state and
all inputs; its `PreProcessingError` branch is never produced. -/
theorem lookup_gate_always_ok {F : Type} [CommRing F] [DecidableEq F]
    (cs : PlookupComposer F) (a b c : Variable) :
    (cs.lookup_gate a b c).2 = Except.ok () :=
  rfl

/-- Claim C3: `compute_quotient_i` returns exactly the sum of the seven
specified terms: with `x = linear_evaluations[index]` and the four sigma
evaluations at `index`, the first summand is
`(w_l+βx+γ)(w_r+βK1x+γ)(w_o+βK2x+γ)(w_4+βK3x+γ)·z·α`, the alpha powers are
`α` on the two permutation terms, `α⁵` (by repeated multiplication) on the
two lookup terms, the supplied `L1·α²`/`L1·α⁴` factors on the boundary term,
the supplied `Ln·α⁷` factor on the last-row term, and the overlap summand is
`(h_1 - h_2(ω·))` times the supplied `Ln·α⁶` factor. -/
theorem compute_quotient_i_is_seven_term_sum {F : Type} [CommRing F] [DecidableEq F]
    (K1 K2 K3 : F) (pk : ProverKey F) (index : Nat)
    (w_l_i w_r_i w_o_i w_4_i f_i t_i t_i_next h_1_i h_2_i h_1_i_next h_2_i_next
     z_i z_i_next p_i p_i_next alpha l1_alpha_sq l1_alpha_4 ln_alpha_6 ln_alpha_7
     beta gamma delta epsilon omega_roots : F)
    (x ls rs os fs : F)
    (hx : pk.linear_evaluations.get? index = some x)
    (hls : pk.left_sigma.2.get? index = some ls)
    (hrs : pk.right_sigma.2.get? index = some rs)
    (hos : pk.out_sigma.2.get? index = some os)
    (hfs : pk.fourth_sigma.2.get? index = some fs) :
    ProverKey.compute_quotient_i K1 K2 K3 pk index
      w_l_i w_r_i w_o_i w_4_i f_i t_i t_i_next h_1_i h_2_i h_1_i_next h_2_i_next
      z_i z_i_next p_i p_i_next alpha l1_alpha_sq l1_alpha_4 ln_alpha_6 ln_alpha_7
      beta gamma delta epsilon omega_roots =
    some (
      (w_l_i + beta * x + gamma) * (w_r_i + beta * K1 * x + gamma)
          * (w_o_i + beta * K2 * x + gamma) * (w_4_i + beta * K3 * x + gamma)
          * z_i * alpha
      + (-((w_l_i + beta * ls + gamma) * (w_r_i + beta * rs + gamma)
          * (w_o_i + beta * os + gamma) * (w_4_i + beta * fs + gamma)
          * z_i_next * alpha))
      + (x - omega_roots) * p_i * (1 + delta) * (epsilon + f_i)
          * (epsilon * (1 + delta) + t_i + delta * t_i_next)
          * (alpha * alpha * alpha * alpha * alpha)
      + (-(p_i_next * (x - omega_roots)
          * (epsilon * (1 + delta) + h_1_i + delta * h_1_i_next)
          * (epsilon * (1 + delta) + h_2_i + delta * h_2_i_next)
          * (alpha * alpha * alpha * alpha * alpha)))
      + ((z_i - 1) * l1_alpha_sq + (p_i - 1) * l1_alpha_4)
      + (p_i - 1) * ln_alpha_7
      + (h_1_i - h_2_i_next) * ln_alpha_6) := by
  simp only [ProverKey.compute_quotient_i,
    ProverKey.compute_quotient_identity_range_check_i,
    ProverKey.compute_quotient_copy_range_check_i,
    ProverKey.compute_lookup_quotient_identity_range_check_i,
    ProverKey.compute_lookup_quotient_copy_range_check_i,
    ProverKey.compute_quotient_term_check_first_la_grange_polys,
    ProverKey.compute_quotient_last_la_grange_polys,
    ProverKey.compute_overlap_check,
    hx, hls, hrs, hos, hfs, Option.map_some', Option.some_bind, Option.bind_eq_bind,
    Option.some.injEq, bind, pure]

/-- Witness for C3: the seven-term sum theorem applied to the concrete key
`pkW` over `ZMod 101` at index 0. -/
theorem compute_quotient_i_is_seven_term_sum_witness :
    (ProverKey.compute_quotient_i (2 : ZMod 101) 3 4 pkW 0
      1 1 1 1 1 1 1 1 1 1 1 1 1 1 1 1 1 1 1 1 1 1 1 1 1).isSome := by
  rw [compute_quotient_i_is_seven_term_sum 2 3 4 pkW 0
    1 1 1 1 1 1 1 1 1 1 1 1 1 1 1 1 1 1 1 1 1 1 1 1 1
    10 3 5 7 9 rfl rfl rfl rfl rfl]
  rfl

/-- Counterexample to claim C4 as stated: `compute_linearisation` does not
take any contribution from the lookup terms — two prover keys that differ in
all their lookup data (`h_1`, `h_2`, `t`) but agree elsewhere produce the
identical linearisation polynomial. -/
theorem compute_linearisation_ignores_lookup_data :
    pkW.h_1 ≠ pkWL.h_1 ∧ pkW.h_2 ≠ pkWL.h_2 ∧ pkW.t ≠ pkWL.t ∧
    ProverKey.compute_linearisation (fun n => some n) (fun _ _ => [1])
        (fun p => p.length - 1) (2 : ZMod 101) 3 4 pkW
        5 6 7 8 9 10 11 12 13 14 15 16 [17, 18] =
      ProverKey.compute_linearisation (fun n => some n) (fun _ _ => [1])
        (fun p => p.length - 1) (2 : ZMod 101) 3 4 pkWL
        5 6 7 8 9 10 11 12 13 14 15 16 [17, 18] := by
  decide

/-- Claim C4 (amended): `compute_linearisation` is built from terms 1 and 2
and the z-part of boundary term 5 only — the retained polynomial is `z_poly`
for term 1 (scaled by the evaluated scalar
`(ā+βz+γ)(b̄+βK1z+γ)(c̄+βK2z+γ)(d̄+βK3z+γ)·α`), the `fourth_sigma` polynomial
for term 2 (scaled by `-(ā+βσ̄1+γ)(b̄+βσ̄2+γ)(c̄+βσ̄3+γ)·β·z̄·α`), and `z_poly`
again for term 5 (scaled by `L1(z)·α²`); the lookup terms (3, 4, 6, 7 and
the p-part of 5) contribute nothing. -/
theorem compute_linearisation_three_permutation_terms {F : Type} [CommRing F] [DecidableEq F]
    {EvDom : Type}
    (evaluation_domain_new : Nat → Option EvDom)
    (evaluate_all_lagrange_coefficients : EvDom → F → List F)
    (poly_degree : List F → Nat)
    (K1 K2 K3 : F) (pk : ProverKey F)
    (z_challenge alpha beta gamma a_eval b_eval c_eval d_eval
     sigma_1_eval sigma_2_eval sigma_3_eval z_eval : F)
    (z_poly : List F) (dom : EvDom) (l_1_z : F)
    (hdom : evaluation_domain_new (poly_degree z_poly) = some dom)
    (hl : (evaluate_all_lagrange_coefficients dom z_challenge).get? 0 = some l_1_z) :
    ProverKey.compute_linearisation evaluation_domain_new
      evaluate_all_lagrange_coefficients poly_degree K1 K2 K3 pk
      z_challenge alpha beta gamma a_eval b_eval c_eval d_eval
      sigma_1_eval sigma_2_eval sigma_3_eval z_eval z_poly =
    some (polyAdd (polyAdd
      (polyScale z_poly
        ((a_eval + beta * z_challenge + gamma)
          * (b_eval + K1 * (beta * z_challenge) + gamma)
          * (c_eval + K2 * (beta * z_challenge) + gamma)
          * (d_eval + K3 * (beta * z_challenge) + gamma) * alpha))
      (polyScale pk.fourth_sigma.1
        (-((a_eval + beta * sigma_1_eval + gamma)
          * (b_eval + beta * sigma_2_eval + gamma)
          * (c_eval + beta * sigma_3_eval + gamma)
          * (beta * z_eval) * alpha))))
      (polyScale z_poly (l_1_z * (alpha * alpha)))) := by
  simp only [ProverKey.compute_linearisation,
    ProverKey.compute_lineariser_identity_range_check,
    ProverKey.compute_lineariser_copy_range_check,
    ProverKey.compute_lineariser_check_is_one,
    hdom, hl, Option.map_some', Option.some_bind, Option.bind_eq_bind, bind, pure]

/-- Witness for the amended C4: the three-term linearisation theorem applied
to the concrete key `pkW` over `ZMod 101`. -/
theorem compute_linearisation_three_permutation_terms_witness :
    (ProverKey.compute_linearisation (fun n => some n) (fun _ _ => [1])
      (fun p => p.length - 1) (2 : ZMod 101) 3 4 pkW
      5 6 7 8 9 10 11 12 13 14 15 16 [17, 18]).isSome := by
  rw [compute_linearisation_three_permutation_terms (fun n => some n) (fun _ _ => [1])
    (fun p => p.length - 1) (2 : ZMod 101) 3 4 pkW
    5 6 7 8 9 10 11 12 13 14 15 16 [17, 18] 1 1 rfl rfl]
  rfl

/-- Claim C5: totality — `compute_quotient_i` never hits its out-of-bounds
branches when `index` is within the bounds of `linear_evaluations` and of the
four sigma evaluation tables, and `compute_linearisation` never hits its
`unwrap`/indexing branches when an evaluation domain exists for
`z_poly.degree()` and the Lagrange-coefficient vector is nonempty. -/
theorem quotient_and_linearisation_total {F : Type} [CommRing F] [DecidableEq F] :
    (∀ (K1 K2 K3 : F) (pk : ProverKey F) (index : Nat)
      (w_l_i w_r_i w_o_i w_4_i f_i t_i t_i_next h_1_i h_2_i h_1_i_next h_2_i_next
       z_i z_i_next p_i p_i_next alpha l1_alpha_sq l1_alpha_4 ln_alpha_6 ln_alpha_7
       beta gamma delta epsilon omega_roots : F),
      index < pk.linear_evaluations.length →
      index < pk.left_sigma.2.length →
      index < pk.right_sigma.2.length →
      index < pk.out_sigma.2.length →
      index < pk.fourth_sigma.2.length →
      (ProverKey.compute_quotient_i K1 K2 K3 pk index
        w_l_i w_r_i w_o_i w_4_i f_i t_i t_i_next h_1_i h_2_i h_1_i_next h_2_i_next
        z_i z_i_next p_i p_i_next alpha l1_alpha_sq l1_alpha_4 ln_alpha_6 ln_alpha_7
        beta gamma delta epsilon omega_roots).isSome) ∧
    (∀ {EvDom : Type}
      (evaluation_domain_new : Nat → Option EvDom)
      (evaluate_all_lagrange_coefficients : EvDom → F → List F)
      (poly_degree : List F → Nat)
      (K1 K2 K3 : F) (pk : ProverKey F)
      (z_challenge alpha beta gamma a_eval b_eval c_eval d_eval
       sigma_1_eval sigma_2_eval sigma_3_eval z_eval : F)
      (z_poly : List F) (dom : EvDom),
      evaluation_domain_new (poly_degree z_poly) = some dom →
      0 < (evaluate_all_lagrange_coefficients dom z_challenge).length →
      (ProverKey.compute_linearisation evaluation_domain_new
        evaluate_all_lagrange_coefficients poly_degree K1 K2 K3 pk
        z_challenge alpha beta gamma a_eval b_eval c_eval d_eval
        sigma_1_eval sigma_2_eval sigma_3_eval z_eval z_poly).isSome) := by
  constructor
  · intro K1 K2 K3 pk index w_l_i w_r_i w_o_i w_4_i f_i t_i t_i_next h_1_i h_2_i
      h_1_i_next h_2_i_next z_i z_i_next p_i p_i_next alpha l1_alpha_sq l1_alpha_4
      ln_alpha_6 ln_alpha_7 beta gamma delta epsilon omega_roots hx hls hrs hos hfs
    simp only [ProverKey.compute_quotient_i,
      ProverKey.compute_quotient_identity_range_check_i,
      ProverKey.compute_quotient_copy_range_check_i,
      ProverKey.compute_lookup_quotient_identity_range_check_i,
      ProverKey.compute_lookup_quotient_copy_range_check_i,
      List.get?_eq_get hx, List.get?_eq_get hls, List.get?_eq_get hrs,
      List.get?_eq_get hos, List.get?_eq_get hfs,
      Option.map_some', Option.some_bind, Option.bind_eq_bind, Option.isSome_some,
      bind, pure]
  · intro EvDom evaluation_domain_new evaluate_all_lagrange_coefficients poly_degree
      K1 K2 K3 pk z_challenge alpha beta gamma a_eval b_eval c_eval d_eval
      sigma_1_eval sigma_2_eval sigma_3_eval z_eval z_poly dom hdom hlen
    simp only [ProverKey.compute_linearisation,
      ProverKey.compute_lineariser_check_is_one,
      hdom, List.get?_eq_get hlen,
      Option.map_some', Option.some_bind, Option.bind_eq_bind, Option.isSome_some,
      bind, pure]

/-- Witness for C5: both totality statements applied to the concrete key
`pkW` over `ZMod 101`. -/
theorem quotient_and_linearisation_total_witness :
    (ProverKey.compute_quotient_i (2 : ZMod 101) 3 4 pkW 0
      1 1 1 1 1 1 1 1 1 1 1 1 1 1 1 1 1 1 1 1 1 1 1 1 1).isSome ∧
    (ProverKey.compute_linearisation (fun n => some n) (fun _ _ => [1])
      (fun p => p.length - 1) (2 : ZMod 101) 3 4 pkW
      5 6 7 8 9 10 11 12 13 14 15 16 [17, 18]).isSome :=
  ⟨quotient_and_linearisation_total.1 2 3 4 pkW 0
      1 1 1 1 1 1 1 1 1 1 1 1 1 1 1 1 1 1 1 1 1 1 1 1 1
      (by decide) (by decide) (by decide) (by decide) (by decide),
    quotient_and_linearisation_total.2 (fun n => some n) (fun _ _ => [1])
      (fun p => p.length - 1) 2 3 4 pkW
      5 6 7 8 9 10 11 12 13 14 15 16 [17, 18] 1 rfl (by decide)⟩

end Plonk
